import Mathlib

/-!
Shallow embedding of the INSTANT cross-chain lending frontend.

The embedding models the loan-lifecycle logic of the repository:
network/contract binding (`initializeContracts` in the app shell),
loan-state synchronization and collateral status derivation
(`fetchLoanDetails` in BorrowTab), the client-side collateral estimate
(`updateEstimatedCollateral` in BorrowTab), the event-log liquidation
scan (`loadAtRiskLoans` in LiquidationsTab), and the transaction-ledger
writes performed by the user-action handlers (`handleRepay` in RepayTab,
`handleConfirm` in LoanRequestModal, `handleDepositCollateral` in
BorrowTab).

Conventions of the embedding:
- uint256 values read from chain are `Nat` (wei / raw units).
- JavaScript `number` values that can be fractional (human ether/MATIC
  units entered by the user, `fromWei` conversions) are `Rat`.
- A fallible external call is a function into `Except Err _`; a thrown
  JS exception is the `.error` case.  A `try { ... } catch` block that
  swallows the error and leaves component state unchanged is modelled by
  returning the previous state on `.error`.
- An early `return` guard (missing contract handle, missing account) is
  modelled by `Option`: `none` means the function returned before any
  external read.
- `async` interleaving is irrelevant to the modelled functions: each
  handler body runs to completion over the values its awaits produced,
  so the embedding passes those values in as parameters.
-/

namespace Instant

/-- Error values carried by a thrown JS exception / rejected promise. -/
abbrev Err := String

/-- Opaque raw log entry as returned by `eth.getPastLogs` (identified by
an index; the scan only ever feeds a raw log to the decoder). -/
abbrev RawLog := Nat

deriving instance DecidableEq for Except

/-- `Number(web3.utils.fromWei(n, 'ether'))`: wei to human units. -/
def fromWei (n : Nat) : ℚ := (n : ℚ) / 10 ^ 18

/-- `web3.utils.toWei(x.toString(), 'ether')`: human units to wei. -/
def toWei (amount : ℚ) : ℚ := amount * 10 ^ 18

/-! ## Contract binding (`initializeContracts`, src/unnamed/part_000) -/

/-- Chain id of Base Sepolia, `SUPPORTED_NETWORKS.BASE_SEPOLIA.chainId`. -/
def BASE_SEPOLIA_CHAIN_ID : Nat := 84532

/-- Chain id of Ethereum Sepolia, `SUPPORTED_NETWORKS.SEPOLIA.chainId`. -/
def SEPOLIA_CHAIN_ID : Nat := 11155111

/-- The three contract-handle slots held by the Web3 context.  `none`
models a handle set to `null`. -/
structure ContractHandles where
  maticContract : Option Unit
  destinationContract : Option Unit
  originContract : Option Unit
deriving DecidableEq

/-- `initializeContracts(web3Instance, currentChainId)`: all three
handles are first cleared to `null`; then, only for a recognized chain
id, the handle set for that chain is installed.  An unrecognized id
leaves every handle `null`. -/
def initializeContracts (chainId : Nat) : ContractHandles :=
  if chainId = BASE_SEPOLIA_CHAIN_ID then
    { maticContract := some (), destinationContract := some (), originContract := none }
  else if chainId = SEPOLIA_CHAIN_ID then
    { maticContract := none, destinationContract := none, originContract := some () }
  else
    { maticContract := none, destinationContract := none, originContract := none }

/-! ## Loan-state synchronization (`fetchLoanDetails`, BorrowTab.tsx) -/

/-- Raw origin-chain `getLoanDetails` tuple; field `dI` is `details[I]`
in the source (uint256 components as `Nat`, `details[6]` the bool). -/
structure OriginRawDetails where
  d0 : Nat
  d1 : Nat
  d2 : Nat
  d3 : Nat
  d4 : Nat
  d5 : Nat
  d6 : Bool
deriving DecidableEq

/-- The `parsedDetails` record built by `fetchLoanDetails`:
`collateralAmount: details[0]`, `loanAmount: details[1]`,
`destinationChain: details[2]`, `interestRate: details[3]`,
`creditScore: details[4]`, `duration: details[5]`, `active: details[6]`. -/
structure LoanDetailsRec where
  collateralAmount : Nat
  loanAmount : Nat
  destinationChain : Nat
  interestRate : Nat
  creditScore : Nat
  duration : Nat
  active : Bool
deriving DecidableEq

/-- Positional decode of the raw tuple into `parsedDetails`. -/
def parseLoanDetails (details : OriginRawDetails) : LoanDetailsRec :=
  { collateralAmount := details.d0
    loanAmount := details.d1
    destinationChain := details.d2
    interestRate := details.d3
    creditScore := details.d4
    duration := details.d5
    active := details.d6 }

/-- Derived collateral status; `requiredCollateral` is kept in wei as in
the source (there a decimal string). -/
structure CollateralStatus where
  isFullyCollateralized : Bool
  requiredCollateral : Nat
deriving DecidableEq

/-- The three pieces of component state written by `fetchLoanDetails`:
`setLoanDetails`, `setCollateralStatus`, `setLoanAmount` (the last in
human units via `fromWei`). -/
structure BorrowView where
  loanDetails : Option LoanDetailsRec
  collateralStatus : CollateralStatus
  loanAmount : ℚ
deriving DecidableEq

/-- Body of `fetchLoanDetails` after a successful `getLoanDetails` read.
Mirrors the source branching:
if `!active && collateralAmount != 0` the on-chain
`calculateRequiredCollateral(loanAmount)` is read (parameter
`calcRequired`); else if `active && collateralAmount != 0` the status is
fully collateralized with `required = 0`; else (the remaining cases,
commented in the source as no active loan) status is not collateralized,
`required = 0`, and the loan amount is reset to `0`.
The previous component state `s` is taken as a parameter; the body never
reads it, every written field comes from `details` alone. -/
def fetchLoanDetailsBody (calcRequired : Nat → Nat) (details : OriginRawDetails)
    (s : BorrowView) : BorrowView :=
  let parsed := parseLoanDetails details
  if parsed.active = false ∧ parsed.collateralAmount ≠ 0 then
    { loanDetails := some parsed
      collateralStatus := { isFullyCollateralized := false
                            requiredCollateral := calcRequired parsed.loanAmount }
      loanAmount := fromWei parsed.loanAmount }
  else if parsed.active = true ∧ parsed.collateralAmount ≠ 0 then
    { loanDetails := some parsed
      collateralStatus := { isFullyCollateralized := true, requiredCollateral := 0 }
      loanAmount := fromWei parsed.loanAmount }
  else
    { loanDetails := some parsed
      collateralStatus := { isFullyCollateralized := false, requiredCollateral := 0 }
      loanAmount := 0 }

/-- Full `fetchLoanDetails`: the early-return guard
`if (!OriginContract || !account || !web3) return;` and the `try/catch`
that leaves all state unchanged when the read throws. -/
def fetchLoanDetails (originContract : Option Unit) (account : String) (hasWeb3 : Bool)
    (readDetails : Except Err OriginRawDetails) (calcRequired : Nat → Nat)
    (s : BorrowView) : BorrowView :=
  if originContract = none ∨ account = "" ∨ hasWeb3 = false then s
  else
    match readDetails with
    | .error _ => s
    | .ok details => fetchLoanDetailsBody calcRequired details s

/-! ## Collateral estimate (`updateEstimatedCollateral`, BorrowTab.tsx) -/

/-- Result of one run of `updateEstimatedCollateral`: the value written
to `estimatedCollateral` (wei) and how many external
`calculateRequiredCollateral` reads were made. -/
structure EstimateResult where
  estimatedCollateral : Nat
  externalReads : Nat
deriving DecidableEq

/-- `updateEstimatedCollateral`: the guard is
`if (!OriginContract || !loanAmount || loanAmount === 0 || !web3)`;
for a JS number, `!loanAmount` and `loanAmount === 0` both test equality
with zero, so the guard short-circuits exactly when the amount is `0`
(or a handle is missing).  Otherwise the on-chain
`calculateRequiredCollateral(toWei(loanAmount))` is read. -/
def updateEstimatedCollateral (originContract : Option Unit) (hasWeb3 : Bool)
    (loanAmount : ℚ) (calcRequired : ℚ → Nat) : EstimateResult :=
  if originContract = none ∨ loanAmount = 0 ∨ hasWeb3 = false then
    { estimatedCollateral := 0, externalReads := 0 }
  else
    { estimatedCollateral := calcRequired (toWei loanAmount), externalReads := 1 }

/-! ## Liquidation scan (`loadAtRiskLoans`, LiquidationsTab.tsx) -/

/-- Raw destination-chain `getLoanDetails` tuple; field `eI` is
`loanDetails['I']` in the source: `'0'` amount, `'1'` repaidAmount,
`'2'` interestRate, `'3'` dueDate (seconds), `'4'` creditScore,
`'5'` active, `'6'` funded. -/
structure DestRawDetails where
  e0 : Nat
  e1 : Nat
  e2 : Nat
  e3 : Nat
  e4 : Nat
  e5 : Bool
  e6 : Bool
deriving DecidableEq

/-- One entry of the at-risk list (`Loan` in the source). -/
structure RiskLoan where
  id : String
  borrower : String
  amount : ℚ
  repaidAmount : ℚ
  totalDue : ℚ
  liquidationPrice : String
  active : Bool
  funded : Bool
deriving DecidableEq

/-- The `Loan` object built for an overdue active funded borrower. -/
def mkRiskLoan (borrower : String) (d : DestRawDetails) (totalDue : Nat) : RiskLoan :=
  { id := borrower
    borrower := borrower
    amount := fromWei d.e0
    repaidAmount := fromWei d.e1
    totalDue := fromWei totalDue
    liquidationPrice := "Overdue"
    active := d.e5
    funded := d.e6 }

/-- Per-event async callback inside `decodedEvents.map(...)`: fetches
the current loan record of the borrower, and when `active && funded`
fetches `calculateTotalDue` and tests `Date.now() > dueDate * 1000`;
yields the built `Loan` if overdue, `null` otherwise.  A throw from
either chain read propagates. -/
def checkLoan (getLoanDetails : String → Except Err DestRawDetails)
    (calculateTotalDue : String → Except Err Nat) (nowMs : Nat)
    (borrower : String) : Except Err (Option RiskLoan) :=
  match getLoanDetails borrower with
  | .error e => .error e
  | .ok d =>
    if d.e5 = true ∧ d.e6 = true then
      match calculateTotalDue borrower with
      | .error e => .error e
      | .ok totalDue =>
        if nowMs > d.e3 * 1000 then .ok (some (mkRiskLoan borrower d totalDue))
        else .ok none
    else .ok none

/-- Step 2 of the scan, `events.map(event => decode...)`: a synchronous
map in which the first decoding throw aborts the whole map.  Decoding
yields the borrower address of the event. -/
def decodeAll (decodeEvent : RawLog → Except Err String) :
    List RawLog → Except Err (List String)
  | [] => .ok []
  | l :: ls =>
    match decodeEvent l with
    | .error e => .error e
    | .ok b =>
      match decodeAll decodeEvent ls with
      | .error e => .error e
      | .ok bs => .ok (b :: bs)

/-- Step 3 of the scan, `Promise.all(decodedEvents.map(checkLoan))`:
the first rejected per-borrower check rejects the whole combined
promise. -/
def checkAll (getLoanDetails : String → Except Err DestRawDetails)
    (calculateTotalDue : String → Except Err Nat) (nowMs : Nat) :
    List String → Except Err (List (Option RiskLoan))
  | [] => .ok []
  | b :: bs =>
    match checkLoan getLoanDetails calculateTotalDue nowMs b with
    | .error e => .error e
    | .ok o =>
      match checkAll getLoanDetails calculateTotalDue nowMs bs with
      | .error e => .error e
      | .ok os => .ok (o :: os)

/-- `loadAtRiskLoans`: the early-return guard
`if (!account || !DestinationContract || !web3) return` (modelled by
`none`: nothing read, state untouched), then one `try` block containing
the whole pipeline — `getPastLogs`, the decoding map, the
`Promise.all` of per-borrower checks, and the final
`filter(isLoan)` dropping the `null` results.  The single surrounding
`catch` means any throw anywhere in the pipeline yields `.error`
(state not updated, error toasted). -/
def loadAtRiskLoans (account : String) (destinationContract : Option Unit)
    (hasWeb3 : Bool) (getPastLogs : Except Err (List RawLog))
    (decodeEvent : RawLog → Except Err String)
    (getLoanDetails : String → Except Err DestRawDetails)
    (calculateTotalDue : String → Except Err Nat) (nowMs : Nat) :
    Option (Except Err (List RiskLoan)) :=
  if account = "" ∨ destinationContract = none ∨ hasWeb3 = false then none
  else some (
    match getPastLogs with
    | .error e => .error e
    | .ok events =>
      match decodeAll decodeEvent events with
      | .error e => .error e
      | .ok borrowers =>
        match checkAll getLoanDetails calculateTotalDue nowMs borrowers with
        | .error e => .error e
        | .ok results => .ok (results.filterMap id))

/-! ## Transaction ledger writes (RepayTab, LoanRequestModal, BorrowTab) -/

/-- Outcome of an awaited `.send({ from: account })`: the transaction
confirmed with a receipt hash; or it threw an error that carries a
`transactionHash` (broadcast succeeded, confirmation not observed); or
it threw without a hash (rejected before broadcast). -/
inductive TxOutcome where
  | confirmed (txHash : String)
  | failedWithHash (txHash : String)
  | rejected
deriving DecidableEq

/-- Fields passed to `TransactionStore.saveTransaction` (the `Transaction`
type minus the store-assigned `id` and `date`). -/
structure LedgerEntryInput where
  chain : String
  kind : String
  amount : ℚ
  token : String
  status : String
  txHash : String
deriving DecidableEq

/-- Modelled from the spec: the TransactionStore utility
(`app/utils/transactionHistory`) is not among the provided sources, only
its callers are.  Per the spec the TransactionLedger is append-only and
`list()` returns entries most-recent-first, so `saveTransaction`
prepends the new entry to the stored list. -/
def saveTransaction (t : LedgerEntryInput) (ledger : List LedgerEntryInput) :
    List LedgerEntryInput :=
  t :: ledger

/-- The numeric value the repay handler passes to the on-chain
`repayLoan`: literally `Number(amountInWei) / 10**18` where
`amountInWei = toWei(repayAmount)`. -/
def repayLoanCallArg (repayAmount : ℚ) : ℚ := toWei repayAmount / 10 ^ 18

/-- Ledger entry saved by `handleRepay` on success. -/
def repayCompletedEntry (repayAmount : ℚ) (txHash : String) : LedgerEntryInput :=
  { chain := "base", kind := "Repay", amount := repayAmount, token := "MATIC"
    status := "completed", txHash := txHash }

/-- Ledger entry saved by `handleRepay` when the thrown error carries a
transaction hash. -/
def repayPendingEntry (repayAmount : ℚ) (txHash : String) : LedgerEntryInput :=
  { chain := "base", kind := "Repay", amount := repayAmount, token := "MATIC"
    status := "pending", txHash := txHash }

/-- `handleRepay` (RepayTab): the invalid-amount guard
`!repayAmount || Number(repayAmount) <= 0 || !web3` returns with no
ledger write; a missing contract/account throws inside the `try` (the
thrown `Error` has no `transactionHash`, so the catch writes nothing).
On a confirmed send a completed entry is saved; in the catch, a pending
entry is saved only when the error carries a `transactionHash`. -/
def handleRepay (repayAmount : ℚ) (hasWeb3 : Bool) (contractReady : Bool)
    (outcome : TxOutcome) (ledger : List LedgerEntryInput) :
    List LedgerEntryInput :=
  if repayAmount ≤ 0 ∨ hasWeb3 = false then ledger
  else if contractReady = false then ledger
  else
    match outcome with
    | .confirmed h => saveTransaction (repayCompletedEntry repayAmount h) ledger
    | .failedWithHash h => saveTransaction (repayPendingEntry repayAmount h) ledger
    | .rejected => ledger

/-- Ledger entry saved by `handleConfirm` on success. -/
def borrowCompletedEntry (loanAmount : ℚ) (txHash : String) : LedgerEntryInput :=
  { chain := "sepolia", kind := "Borrow", amount := loanAmount, token := "MATIC"
    status := "completed", txHash := txHash }

/-- `handleConfirm` (LoanRequestModal): without a connected wallet it
returns with no write; on a confirmed `requestLoan` send a completed
entry is saved; the catch only toasts — no ledger write on any failure,
with or without a transaction hash. -/
def handleConfirm (loanAmount : ℚ) (connected : Bool) (outcome : TxOutcome)
    (ledger : List LedgerEntryInput) : List LedgerEntryInput :=
  if connected = false then ledger
  else
    match outcome with
    | .confirmed h => saveTransaction (borrowCompletedEntry loanAmount h) ledger
    | .failedWithHash _ => ledger
    | .rejected => ledger

/-- Ledger entry saved by `handleDepositCollateral` on success; the
amount recorded is `fromWei(requiredCollateral)`. -/
def depositCompletedEntry (requiredCollateral : Nat) (txHash : String) :
    LedgerEntryInput :=
  { chain := "sepolia", kind := "Deposit Collateral"
    amount := fromWei requiredCollateral, token := "ETH"
    status := "completed", txHash := txHash }

/-- `handleDepositCollateral` (BorrowTab): the guard returns when a
handle is missing or the position is already fully collateralized; on a
confirmed `depositCollateral` send a completed entry is saved; the catch
only logs — no ledger write on any failure. -/
def handleDepositCollateral (ready : Bool) (isFullyCollateralized : Bool)
    (requiredCollateral : Nat) (outcome : TxOutcome)
    (ledger : List LedgerEntryInput) : List LedgerEntryInput :=
  if ready = false ∨ isFullyCollateralized = true then ledger
  else
    match outcome with
    | .confirmed h => saveTransaction (depositCompletedEntry requiredCollateral h) ledger
    | .failedWithHash _ => ledger
    | .rejected => ledger

/-! ## Theorems -/

/-- C1 counterexample: a raw record with `active = true` and
`collateralAmount = 0` falls into the final else branch of
`fetchLoanDetails`, so the derived status is not
`isFullyCollateralized = true, requiredCollateral = 0` — it is
`isFullyCollateralized = false`. -/
theorem claim1_counterexample :
    (parseLoanDetails ⟨0, 5, 84532, 500, 700, 30, true⟩).active = true ∧
    (fetchLoanDetailsBody (fun _ => 999) ⟨0, 5, 84532, 500, 700, 30, true⟩
        ⟨none, ⟨false, 0⟩, 0⟩).collateralStatus ≠
      ⟨true, 0⟩ := by
  decide

/-- C1 (amended): for a loan record read with `active = true` the derived
status is `isFullyCollateralized = true, requiredCollateral = 0` only
when `collateralAmount ≠ 0`; when `collateralAmount = 0` the derivation
treats the record as having no loan: status
`isFullyCollateralized = false, requiredCollateral = 0` and the loan
amount is reset to `0`. -/
theorem activeLoanStatus (calcRequired : Nat → Nat) (details : OriginRawDetails)
    (s : BorrowView) (ha : (parseLoanDetails details).active = true) :
    (fetchLoanDetailsBody calcRequired details s).collateralStatus =
      (if (parseLoanDetails details).collateralAmount ≠ 0 then ⟨true, 0⟩
        else ⟨false, 0⟩) ∧
    (fetchLoanDetailsBody calcRequired details s).loanAmount =
      (if (parseLoanDetails details).collateralAmount ≠ 0
        then fromWei (parseLoanDetails details).loanAmount else 0) := by
  by_cases hc : (parseLoanDetails details).collateralAmount = 0 <;>
    simp [fetchLoanDetailsBody, ha, hc]

/-- Witness for the amended C1 at a concrete active record with nonzero
collateral. -/
theorem activeLoanStatus_witness :
    (fetchLoanDetailsBody (fun _ => 999) ⟨7, 5, 84532, 500, 700, 30, true⟩
        ⟨none, ⟨false, 0⟩, 0⟩).collateralStatus =
      (if (parseLoanDetails ⟨7, 5, 84532, 500, 700, 30, true⟩).collateralAmount ≠ 0
        then ⟨true, 0⟩ else ⟨false, 0⟩) ∧
    (fetchLoanDetailsBody (fun _ => 999) ⟨7, 5, 84532, 500, 700, 30, true⟩
        ⟨none, ⟨false, 0⟩, 0⟩).loanAmount =
      (if (parseLoanDetails ⟨7, 5, 84532, 500, 700, 30, true⟩).collateralAmount ≠ 0
        then fromWei (parseLoanDetails ⟨7, 5, 84532, 500, 700, 30, true⟩).loanAmount
        else 0) :=
  activeLoanStatus (fun _ => 999) ⟨7, 5, 84532, 500, 700, 30, true⟩
    ⟨none, ⟨false, 0⟩, 0⟩ (by decide)

/-- C6: for a loan record read with `active = false` and
`collateralAmount = 0` the derived status is
`isFullyCollateralized = false, requiredCollateral = 0` and the stored
loan amount is reset to `0`. -/
theorem noLoanReset (calcRequired : Nat → Nat) (details : OriginRawDetails)
    (s : BorrowView) (ha : (parseLoanDetails details).active = false)
    (hc : (parseLoanDetails details).collateralAmount = 0) :
    (fetchLoanDetailsBody calcRequired details s).collateralStatus = ⟨false, 0⟩ ∧
    (fetchLoanDetailsBody calcRequired details s).loanAmount = 0 := by
  simp [fetchLoanDetailsBody, ha, hc]

/-- Witness for C6 at a concrete inactive zero-collateral record. -/
theorem noLoanReset_witness :
    (fetchLoanDetailsBody (fun _ => 999) ⟨0, 5, 84532, 500, 700, 30, false⟩
        ⟨none, ⟨true, 3⟩, 4⟩).collateralStatus = ⟨false, 0⟩ ∧
    (fetchLoanDetailsBody (fun _ => 999) ⟨0, 5, 84532, 500, 700, 30, false⟩
        ⟨none, ⟨true, 3⟩, 4⟩).loanAmount = 0 :=
  noLoanReset (fun _ => 999) ⟨0, 5, 84532, 500, 700, 30, false⟩
    ⟨none, ⟨true, 3⟩, 4⟩ (by decide) (by decide)

/-- C8: a successful pull runs the replacement body; the replacement is
independent of the previously stored state, stores all seven fields
decoded from the one raw read, and sequencing two pulls yields exactly
the state the later pull produces on its own (last write wins, never an
interleaved record). -/
theorem wholesalePull (calcRequired : Nat → Nat)
    (details details2 : OriginRawDetails) (s s2 : BorrowView)
    (account : String) (ha : account ≠ "") :
    fetchLoanDetails (some ()) account true (.ok details) calcRequired s =
      fetchLoanDetailsBody calcRequired details s ∧
    fetchLoanDetailsBody calcRequired details s =
      fetchLoanDetailsBody calcRequired details s2 ∧
    (fetchLoanDetailsBody calcRequired details s).loanDetails =
      some (parseLoanDetails details) ∧
    fetchLoanDetailsBody calcRequired details2
        (fetchLoanDetailsBody calcRequired details s) =
      fetchLoanDetailsBody calcRequired details2 s := by
  refine ⟨?_, rfl, ?_, rfl⟩
  · simp [fetchLoanDetails, ha]
  · by_cases h1 : (parseLoanDetails details).active = false ∧
        (parseLoanDetails details).collateralAmount ≠ 0
    · simp [fetchLoanDetailsBody, h1]
    · by_cases h2 : (parseLoanDetails details).active = true ∧
          (parseLoanDetails details).collateralAmount ≠ 0
      · simp [fetchLoanDetailsBody, h1, h2]
      · simp [fetchLoanDetailsBody, h1, h2]

/-- Witness for C8 at concrete raw reads and two distinct previous
states. -/
theorem wholesalePull_witness :
    fetchLoanDetails (some ()) "0xme" true (.ok ⟨1, 2, 3, 4, 5, 6, true⟩)
        (fun n => 2 * n) ⟨none, ⟨false, 0⟩, 0⟩ =
      fetchLoanDetailsBody (fun n => 2 * n) ⟨1, 2, 3, 4, 5, 6, true⟩
        ⟨none, ⟨false, 0⟩, 0⟩ ∧
    fetchLoanDetailsBody (fun n => 2 * n) ⟨1, 2, 3, 4, 5, 6, true⟩
        ⟨none, ⟨false, 0⟩, 0⟩ =
      fetchLoanDetailsBody (fun n => 2 * n) ⟨1, 2, 3, 4, 5, 6, true⟩
        ⟨some ⟨9, 9, 9, 9, 9, 9, true⟩, ⟨true, 5⟩, 3⟩ ∧
    (fetchLoanDetailsBody (fun n => 2 * n) ⟨1, 2, 3, 4, 5, 6, true⟩
        ⟨none, ⟨false, 0⟩, 0⟩).loanDetails =
      some (parseLoanDetails ⟨1, 2, 3, 4, 5, 6, true⟩) ∧
    fetchLoanDetailsBody (fun n => 2 * n) ⟨0, 0, 0, 0, 0, 0, false⟩
        (fetchLoanDetailsBody (fun n => 2 * n) ⟨1, 2, 3, 4, 5, 6, true⟩
          ⟨none, ⟨false, 0⟩, 0⟩) =
      fetchLoanDetailsBody (fun n => 2 * n) ⟨0, 0, 0, 0, 0, 0, false⟩
        ⟨none, ⟨false, 0⟩, 0⟩ :=
  wholesalePull (fun n => 2 * n) ⟨1, 2, 3, 4, 5, 6, true⟩
    ⟨0, 0, 0, 0, 0, 0, false⟩ ⟨none, ⟨false, 0⟩, 0⟩
    ⟨some ⟨9, 9, 9, 9, 9, 9, true⟩, ⟨true, 5⟩, 3⟩ "0xme" (by decide)

/-- C5 counterexample: with the origin contract bound, a strictly
negative loan amount of `-1` passes the falsy guard, so the external
`calculateRequiredCollateral` read is invoked (one external read, and
its value — not `0` — is stored). -/
theorem claim5_counterexample :
    updateEstimatedCollateral (some ()) true (-1) (fun _ => 7) =
      { estimatedCollateral := 7, externalReads := 1 } := by
  decide

/-- C5 (amended): only a loan amount equal to `0` short-circuits to an
estimate of `0` with no external read; any nonzero amount — negative
amounts included — invokes the on-chain `calculateRequiredCollateral`
with `toWei` of that amount. -/
theorem collateralEstimateShortCircuit (loanAmount : ℚ) (calcRequired : ℚ → Nat)
    (hnz : loanAmount ≠ 0) :
    updateEstimatedCollateral (some ()) true 0 calcRequired =
      { estimatedCollateral := 0, externalReads := 0 } ∧
    updateEstimatedCollateral (some ()) true loanAmount calcRequired =
      { estimatedCollateral := calcRequired (toWei loanAmount)
        externalReads := 1 } := by
  constructor
  · simp [updateEstimatedCollateral]
  · simp [updateEstimatedCollateral, hnz]

/-- Witness for the amended C5 at the negative amount `-1`. -/
theorem collateralEstimateShortCircuit_witness :
    updateEstimatedCollateral (some ()) true 0 (fun _ => 7) =
      { estimatedCollateral := 0, externalReads := 0 } ∧
    updateEstimatedCollateral (some ()) true (-1) (fun _ => 7) =
      { estimatedCollateral := (fun _ => 7) (toWei (-1)), externalReads := 1 } :=
  collateralEstimateShortCircuit (-1) (fun _ => 7) (by norm_num)

/-- C2 counterexample: a borrow request and a collateral deposit whose
transaction was broadcast but not confirmed (the thrown error carries a
transaction hash) append nothing to the ledger — no pending entry is
created, so those actions are lost from history. -/
theorem claim2_counterexample :
    handleConfirm 5 true (.failedWithHash "0xab") [] = [] ∧
    handleDepositCollateral true false 100 (.failedWithHash "0xcd") [] = [] := by
  decide

/-- C2 (amended): a transaction rejected before broadcast creates no
ledger entry for any of the three actions; on broadcast without
confirmation only the repayment handler appends an entry with status
pending and the transaction hash — the borrow-request and
collateral-deposit handlers append nothing on any failure. -/
theorem ledgerWriteDiscipline (r la : ℚ) (required : Nat) (h : String)
    (ledger : List LedgerEntryInput) (hr : 0 < r) :
    handleRepay r true true .rejected ledger = ledger ∧
    handleConfirm la true .rejected ledger = ledger ∧
    handleDepositCollateral true false required .rejected ledger = ledger ∧
    handleRepay r true true (.failedWithHash h) ledger =
      repayPendingEntry r h :: ledger ∧
    (repayPendingEntry r h).status = "pending" ∧
    (repayPendingEntry r h).txHash = h ∧
    handleConfirm la true (.failedWithHash h) ledger = ledger ∧
    handleDepositCollateral true false required (.failedWithHash h) ledger =
      ledger := by
  refine ⟨?_, rfl, rfl, ?_, rfl, rfl, rfl, rfl⟩ <;>
    simp [handleRepay, saveTransaction, hr]

/-- Witness for the amended C2 at concrete amounts, hash and ledger. -/
theorem ledgerWriteDiscipline_witness :
    handleRepay 2 true true .rejected [] = [] ∧
    handleConfirm 5 true .rejected [] = [] ∧
    handleDepositCollateral true false 100 .rejected [] = [] ∧
    handleRepay 2 true true (.failedWithHash "0xh") [] =
      repayPendingEntry 2 "0xh" :: [] ∧
    (repayPendingEntry 2 "0xh").status = "pending" ∧
    (repayPendingEntry 2 "0xh").txHash = "0xh" ∧
    handleConfirm 5 true (.failedWithHash "0xh") [] = [] ∧
    handleDepositCollateral true false 100 (.failedWithHash "0xh") [] = [] :=
  ledgerWriteDiscipline 2 5 100 "0xh" [] (by norm_num)

/-! ### Helper lemmas about the scan pipeline -/

/-- A decoding failure of any member log aborts the whole decoding map. -/
theorem decodeAll_error_of_mem (decodeEvent : RawLog → Except Err String)
    {l : RawLog} {e : Err} :
    ∀ {logs : List RawLog}, l ∈ logs → decodeEvent l = .error e →
      ∃ e2, decodeAll decodeEvent logs = .error e2 := by
  intro logs
  induction logs with
  | nil => intro h _; cases h
  | cons b bs ih =>
    intro hmem hdec
    rcases List.mem_cons.mp hmem with rfl | hmem2
    · exact ⟨e, by simp [decodeAll, hdec]⟩
    · cases hb : decodeEvent b with
      | error e3 => exact ⟨e3, by simp [decodeAll, hb]⟩
      | ok y =>
        rcases ih hmem2 hdec with ⟨e2, h2⟩
        exact ⟨e2, by simp [decodeAll, hb, h2]⟩

/-- A failing per-borrower check of any member borrower rejects the
whole combined check. -/
theorem checkAll_error_of_mem (gld : String → Except Err DestRawDetails)
    (ctd : String → Except Err Nat) (nowMs : Nat) {b : String} {e : Err} :
    ∀ {bs : List String}, b ∈ bs → checkLoan gld ctd nowMs b = .error e →
      ∃ e2, checkAll gld ctd nowMs bs = .error e2 := by
  intro bs
  induction bs with
  | nil => intro h _; cases h
  | cons c cs ih =>
    intro hmem hcl
    rcases List.mem_cons.mp hmem with rfl | hmem2
    · exact ⟨e, by simp [checkAll, hcl]⟩
    · cases hc : checkLoan gld ctd nowMs c with
      | error e3 => exact ⟨e3, by simp [checkAll, hc]⟩
      | ok o =>
        rcases ih hmem2 hcl with ⟨e2, h2⟩
        exact ⟨e2, by simp [checkAll, hc, h2]⟩

/-- When the combined check succeeded, every member borrower had a
successful per-borrower check. -/
theorem checkAll_ok_forall (gld : String → Except Err DestRawDetails)
    (ctd : String → Except Err Nat) (nowMs : Nat) :
    ∀ {bs : List String} {res : List (Option RiskLoan)},
      checkAll gld ctd nowMs bs = .ok res → ∀ {b : String}, b ∈ bs →
        ∃ o, checkLoan gld ctd nowMs b = .ok o := by
  intro bs
  induction bs with
  | nil => intro res _ b hb; cases hb
  | cons c cs ih =>
    intro res h b hb
    unfold checkAll at h
    cases hc : checkLoan gld ctd nowMs c with
    | error e => rw [hc] at h; exact absurd h (by simp)
    | ok o =>
      rw [hc] at h
      cases hcs : checkAll gld ctd nowMs cs with
      | error e => rw [hcs] at h; exact absurd h (by simp)
      | ok os =>
        rcases List.mem_cons.mp hb with rfl | hb2
        · exact ⟨o, hc⟩
        · exact ih hcs hb2

/-- When the combined check succeeded, the result of every member
borrower is in the collected results. -/
theorem checkAll_mem_of_ok (gld : String → Except Err DestRawDetails)
    (ctd : String → Except Err Nat) (nowMs : Nat) :
    ∀ {bs : List String} {res : List (Option RiskLoan)} {b : String}
      {o : Option RiskLoan},
      checkAll gld ctd nowMs bs = .ok res → b ∈ bs →
        checkLoan gld ctd nowMs b = .ok o → o ∈ res := by
  intro bs
  induction bs with
  | nil => intro res b o _ hb; cases hb
  | cons c cs ih =>
    intro res b o h hb hcl
    unfold checkAll at h
    cases hc : checkLoan gld ctd nowMs c with
    | error e => rw [hc] at h; exact absurd h (by simp)
    | ok o2 =>
      rw [hc] at h
      cases hcs : checkAll gld ctd nowMs cs with
      | error e => rw [hcs] at h; exact absurd h (by simp)
      | ok os =>
        rw [hcs] at h
        simp only [Except.ok.injEq] at h
        subst h
        rcases List.mem_cons.mp hb with rfl | hb2
        · rw [hc] at hcl
          simp only [Except.ok.injEq] at hcl
          subst hcl
          exact List.mem_cons_self _ _
        · exact List.mem_cons_of_mem _ (ih hcs hb2 hcl)

/-- Every collected result of a successful combined check came from the
per-borrower check of some member borrower. -/
theorem checkAll_src_of_mem (gld : String → Except Err DestRawDetails)
    (ctd : String → Except Err Nat) (nowMs : Nat) :
    ∀ {bs : List String} {res : List (Option RiskLoan)} {o : Option RiskLoan},
      checkAll gld ctd nowMs bs = .ok res → o ∈ res →
        ∃ b ∈ bs, checkLoan gld ctd nowMs b = .ok o := by
  intro bs
  induction bs with
  | nil =>
    intro res o h ho
    unfold checkAll at h
    simp only [Except.ok.injEq] at h
    subst h
    cases ho
  | cons c cs ih =>
    intro res o h ho
    unfold checkAll at h
    cases hc : checkLoan gld ctd nowMs c with
    | error e => rw [hc] at h; exact absurd h (by simp)
    | ok o2 =>
      rw [hc] at h
      cases hcs : checkAll gld ctd nowMs cs with
      | error e => rw [hcs] at h; exact absurd h (by simp)
      | ok os =>
        rw [hcs] at h
        simp only [Except.ok.injEq] at h
        subst h
        rcases List.mem_cons.mp ho with rfl | ho2
        · exact ⟨c, List.mem_cons_self _ _, hc⟩
        · rcases ih hcs ho2 with ⟨b, hb, hcl⟩
          exact ⟨b, List.mem_cons_of_mem _ hb, hcl⟩

/-- A per-borrower check that produced an at-risk entry did so for that
borrower, from a current record that is active and funded, with the
strict overdue test passing. -/
theorem checkLoan_ok_some (gld : String → Except Err DestRawDetails)
    (ctd : String → Except Err Nat) (nowMs : Nat) (b : String) (rl : RiskLoan)
    (h : checkLoan gld ctd nowMs b = .ok (some rl)) :
    rl.borrower = b ∧ ∃ d, gld b = .ok d ∧ d.e5 = true ∧ d.e6 = true ∧
      nowMs > d.e3 * 1000 := by
  unfold checkLoan at h
  cases hd : gld b with
  | error e => rw [hd] at h; exact absurd h (by simp)
  | ok d =>
    rw [hd] at h
    dsimp only at h
    by_cases haf : d.e5 = true ∧ d.e6 = true
    · rw [if_pos haf] at h
      cases ht : ctd b with
      | error e => rw [ht] at h; exact absurd h (by simp)
      | ok t =>
        rw [ht] at h
        dsimp only at h
        by_cases hov : nowMs > d.e3 * 1000
        · rw [if_pos hov] at h
          simp only [Except.ok.injEq, Option.some.injEq] at h
          subst h
          exact ⟨rfl, d, rfl, haf.1, haf.2, hov⟩
        · rw [if_neg hov] at h
          exact absurd h (by simp)
    · rw [if_neg haf] at h
      exact absurd h (by simp)

/-- A per-borrower check that succeeded on an active funded record must
have read `calculateTotalDue` successfully. -/
theorem checkLoan_ok_totalDue (gld : String → Except Err DestRawDetails)
    (ctd : String → Except Err Nat) (nowMs : Nat) (b : String)
    (o : Option RiskLoan) (d : DestRawDetails)
    (h : checkLoan gld ctd nowMs b = .ok o) (hd : gld b = .ok d)
    (h5 : d.e5 = true) (h6 : d.e6 = true) : ∃ t, ctd b = .ok t := by
  unfold checkLoan at h
  rw [hd] at h
  dsimp only at h
  rw [if_pos ⟨h5, h6⟩] at h
  cases ht : ctd b with
  | error e => rw [ht] at h; exact absurd h (by simp)
  | ok t => exact ⟨t, rfl⟩

/-- A per-borrower check on an active funded record past its due time
produces the at-risk entry for it. -/
theorem checkLoan_overdue (gld : String → Except Err DestRawDetails)
    (ctd : String → Except Err Nat) (nowMs : Nat) (b : String)
    (d : DestRawDetails) (t : Nat) (hd : gld b = .ok d) (h5 : d.e5 = true)
    (h6 : d.e6 = true) (ht : ctd b = .ok t) (hov : nowMs > d.e3 * 1000) :
    checkLoan gld ctd nowMs b = .ok (some (mkRiskLoan b d t)) := by
  unfold checkLoan
  rw [hd]
  dsimp only
  rw [if_pos ⟨h5, h6⟩, ht]
  dsimp only
  rw [if_pos hov]

/-! ### Claim theorems about the scan -/

/-- C3 counterexample: with two logged events, one of which fails to
decode, the whole scan aborts with the decode error and produces no risk
set — even though the other event decodes to a borrower who, scanned
alone, yields an at-risk entry. -/
theorem claim3_counterexample :
    loadAtRiskLoans "0xme" (some ()) true (.ok [0, 1])
      (fun l => if l = 0 then .ok "0xgood" else .error "malformed log")
      (fun _ => .ok ⟨100, 0, 500, 50, 700, true, true⟩)
      (fun _ => .ok 110) 50001 = some (.error "malformed log") ∧
    loadAtRiskLoans "0xme" (some ()) true (.ok [0])
      (fun l => if l = 0 then .ok "0xgood" else .error "malformed log")
      (fun _ => .ok ⟨100, 0, 500, 50, 700, true, true⟩)
      (fun _ => .ok 110) 50001 =
        some (.ok [mkRiskLoan "0xgood" ⟨100, 0, 500, 50, 700, true, true⟩ 110]) :=
  ⟨by decide, rfl⟩

/-- C3 (amended): a failure affecting a single item — a decode failure of
one event, or the loan-record lookup for one borrower failing — aborts
the entire scan: the surrounding catch receives the error and no risk
set is produced at all. -/
theorem singleFailureAbortsScan (account : String) (hasWeb3 : Bool)
    (getPastLogs : Except Err (List RawLog))
    (decodeEvent : RawLog → Except Err String)
    (gld : String → Except Err DestRawDetails)
    (ctd : String → Except Err Nat) (nowMs : Nat) (logs : List RawLog)
    (hacct : account ≠ "") (hweb : hasWeb3 = true)
    (hlogs : getPastLogs = .ok logs)
    (hfail : (∃ l ∈ logs, ∃ e, decodeEvent l = .error e) ∨
      (∃ borrowers, decodeAll decodeEvent logs = .ok borrowers ∧
        ∃ b ∈ borrowers, ∃ e, gld b = .error e)) :
    ∃ e2, loadAtRiskLoans account (some ()) hasWeb3 getPastLogs decodeEvent
      gld ctd nowMs = some (.error e2) := by
  have hguard : ¬(account = "" ∨ (some () : Option Unit) = none ∨
      hasWeb3 = false) := by
    simp [hacct, hweb]
  rcases hfail with ⟨l, hl, e, hdecfail⟩ | ⟨borrowers, hdec, b, hb, e, hgld⟩
  · rcases decodeAll_error_of_mem decodeEvent hl hdecfail with ⟨e2, h2⟩
    refine ⟨e2, ?_⟩
    unfold loadAtRiskLoans
    rw [if_neg hguard, hlogs]
    dsimp only
    rw [h2]
  · have hcl : checkLoan gld ctd nowMs b = .error e := by
      unfold checkLoan
      rw [hgld]
    rcases checkAll_error_of_mem gld ctd nowMs hb hcl with ⟨e2, h2⟩
    refine ⟨e2, ?_⟩
    unfold loadAtRiskLoans
    rw [if_neg hguard, hlogs]
    dsimp only
    rw [hdec]
    dsimp only
    rw [h2]

/-- Witness for the amended C3: a concrete scan with one bad log among
two aborts with some error. -/
theorem singleFailureAbortsScan_witness :
    ∃ e2, loadAtRiskLoans "0xme" (some ()) true (.ok [0, 1])
      (fun l => if l = 0 then .ok "0xgood" else .error "malformed log")
      (fun _ => .ok ⟨100, 0, 500, 50, 700, true, true⟩)
      (fun _ => .ok 110) 50001 = some (.error e2) :=
  singleFailureAbortsScan "0xme" true (.ok [0, 1])
    (fun l => if l = 0 then .ok "0xgood" else .error "malformed log")
    (fun _ => .ok ⟨100, 0, 500, 50, 700, true, true⟩)
    (fun _ => .ok 110) 50001 [0, 1] (by decide) rfl rfl
    (Or.inl ⟨1, by decide, "malformed log", by decide⟩)

/-- C4: with the scan succeeding, a borrower among the decoded events
whose current record is active and funded with due timestamp `d.e3`
(seconds) appears in the risk set exactly when the current time in
milliseconds strictly exceeds `d.e3 * 1000`; at or before that boundary
the borrower is excluded. -/
theorem overdueBoundary (account : String) (hasWeb3 : Bool)
    (getPastLogs : Except Err (List RawLog))
    (decodeEvent : RawLog → Except Err String)
    (gld : String → Except Err DestRawDetails)
    (ctd : String → Except Err Nat) (nowMs : Nat) (logs : List RawLog)
    (borrowers : List String) (b : String) (d : DestRawDetails)
    (out : List RiskLoan) (hlogs : getPastLogs = .ok logs)
    (hdec : decodeAll decodeEvent logs = .ok borrowers) (hb : b ∈ borrowers)
    (hd : gld b = .ok d) (h5 : d.e5 = true) (h6 : d.e6 = true)
    (hout : loadAtRiskLoans account (some ()) hasWeb3 getPastLogs decodeEvent
      gld ctd nowMs = some (.ok out)) :
    (∃ rl ∈ out, rl.borrower = b) ↔ nowMs > d.e3 * 1000 := by
  unfold loadAtRiskLoans at hout
  by_cases hg : (account = "" ∨ (some () : Option Unit) = none ∨ hasWeb3 = false)
  · rw [if_pos hg] at hout; exact absurd hout (by simp)
  · rw [if_neg hg, hlogs] at hout
    dsimp only at hout
    rw [hdec] at hout
    dsimp only at hout
    cases hca : checkAll gld ctd nowMs borrowers with
    | error e => rw [hca] at hout; exact absurd hout (by simp)
    | ok results =>
      rw [hca] at hout
      dsimp only at hout
      simp only [Option.some.injEq, Except.ok.injEq] at hout
      subst hout
      constructor
      · rintro ⟨rl, hrl, hbor⟩
        have hsome : some rl ∈ results := by
          rcases List.mem_filterMap.mp hrl with ⟨o, ho, hoe⟩
          cases o with
          | none => cases hoe
          | some x => cases hoe; exact ho
        rcases checkAll_src_of_mem gld ctd nowMs hca hsome with ⟨b2, hb2, hcl⟩
        rcases checkLoan_ok_some gld ctd nowMs b2 rl hcl with
          ⟨hbor2, d2, hd2, _, _, hov2⟩
        have hbb : b2 = b := by rw [← hbor2, hbor]
        subst hbb
        rw [hd] at hd2
        simp only [Except.ok.injEq] at hd2
        subst hd2
        exact hov2
      · intro hov
        rcases checkAll_ok_forall gld ctd nowMs hca hb with ⟨o, ho⟩
        rcases checkLoan_ok_totalDue gld ctd nowMs b o d ho hd h5 h6 with ⟨t, ht⟩
        have hcl := checkLoan_overdue gld ctd nowMs b d t hd h5 h6 ht hov
        have hmem := checkAll_mem_of_ok gld ctd nowMs hca hb hcl
        exact ⟨mkRiskLoan b d t,
          List.mem_filterMap.mpr ⟨some (mkRiskLoan b d t), hmem, rfl⟩, rfl⟩

/-- Witness for C4 at a concrete scan: due timestamp 50 s, current time
50001 ms, one event for one borrower, who is in the risk set. -/
theorem overdueBoundary_witness :
    (∃ rl ∈ [mkRiskLoan "0xb" ⟨100, 0, 500, 50, 700, true, true⟩ 110],
      rl.borrower = "0xb") ↔ 50001 > (50 : Nat) * 1000 :=
  overdueBoundary "0xme" true (.ok [0]) (fun _ => .ok "0xb")
    (fun _ => .ok ⟨100, 0, 500, 50, 700, true, true⟩) (fun _ => .ok 110)
    50001 [0] ["0xb"] "0xb" ⟨100, 0, 500, 50, 700, true, true⟩
    [mkRiskLoan "0xb" ⟨100, 0, 500, 50, 700, true, true⟩ 110]
    rfl rfl (by simp) rfl rfl rfl rfl

/-- C7: every entry of a successfully produced risk set belongs to a
borrower whose current loan record is active and funded (and past due);
a borrower whose current record is inactive or unfunded is never in the
risk set, whatever historical events exist. -/
theorem riskSetActiveFunded (account : String)
    (destinationContract : Option Unit) (hasWeb3 : Bool)
    (getPastLogs : Except Err (List RawLog))
    (decodeEvent : RawLog → Except Err String)
    (gld : String → Except Err DestRawDetails)
    (ctd : String → Except Err Nat) (nowMs : Nat) (out : List RiskLoan)
    (rl : RiskLoan)
    (hout : loadAtRiskLoans account destinationContract hasWeb3 getPastLogs
      decodeEvent gld ctd nowMs = some (.ok out))
    (hrl : rl ∈ out) :
    ∃ d, gld rl.borrower = .ok d ∧ d.e5 = true ∧ d.e6 = true ∧
      nowMs > d.e3 * 1000 := by
  unfold loadAtRiskLoans at hout
  by_cases hg : (account = "" ∨ destinationContract = none ∨ hasWeb3 = false)
  · rw [if_pos hg] at hout; exact absurd hout (by simp)
  · rw [if_neg hg] at hout
    cases hlogs : getPastLogs with
    | error e => rw [hlogs] at hout; exact absurd hout (by simp)
    | ok logs =>
      rw [hlogs] at hout
      dsimp only at hout
      cases hdec : decodeAll decodeEvent logs with
      | error e => rw [hdec] at hout; exact absurd hout (by simp)
      | ok borrowers =>
        rw [hdec] at hout
        dsimp only at hout
        cases hca : checkAll gld ctd nowMs borrowers with
        | error e => rw [hca] at hout; exact absurd hout (by simp)
        | ok results =>
          rw [hca] at hout
          dsimp only at hout
          simp only [Option.some.injEq, Except.ok.injEq] at hout
          subst hout
          have hsome : some rl ∈ results := by
            rcases List.mem_filterMap.mp hrl with ⟨o, ho, hoe⟩
            cases o with
            | none => cases hoe
            | some x => cases hoe; exact ho
          rcases checkAll_src_of_mem gld ctd nowMs hca hsome with ⟨b2, hb2, hcl⟩
          rcases checkLoan_ok_some gld ctd nowMs b2 rl hcl with
            ⟨hbor, d, hd, h5, h6, hov⟩
          refine ⟨d, ?_, h5, h6, hov⟩
          rw [hbor]
          exact hd

/-- Witness for C7 at a concrete successful scan with one at-risk
entry. -/
theorem riskSetActiveFunded_witness :
    ∃ d, (fun _ => (.ok ⟨100, 0, 500, 50, 700, true, true⟩ :
        Except Err DestRawDetails))
      (mkRiskLoan "0xb" ⟨100, 0, 500, 50, 700, true, true⟩ 110).borrower =
        .ok d ∧ d.e5 = true ∧ d.e6 = true ∧ 50001 > d.e3 * 1000 :=
  riskSetActiveFunded "0xme" (some ()) true (.ok [0]) (fun _ => .ok "0xb")
    (fun _ => .ok ⟨100, 0, 500, 50, 700, true, true⟩) (fun _ => .ok 110)
    50001 [mkRiskLoan "0xb" ⟨100, 0, 500, 50, 700, true, true⟩ 110]
    (mkRiskLoan "0xb" ⟨100, 0, 500, 50, 700, true, true⟩ 110)
    rfl (List.mem_singleton.mpr rfl)

/-- C9: an unrecognized chain id leaves every contract handle `null`;
the liquidation scan then returns before any chain read regardless of
what the reads would produce, and the loan-state pull likewise leaves
all component state untouched. -/
theorem unrecognizedChainNoBinding (chainId : Nat)
    (h1 : chainId ≠ BASE_SEPOLIA_CHAIN_ID) (h2 : chainId ≠ SEPOLIA_CHAIN_ID) :
    initializeContracts chainId = ⟨none, none, none⟩ ∧
    (∀ account hasWeb3 getPastLogs decodeEvent gld ctd nowMs,
      loadAtRiskLoans account (initializeContracts chainId).destinationContract
        hasWeb3 getPastLogs decodeEvent gld ctd nowMs = none) ∧
    (∀ account hasWeb3 readDetails calcRequired s,
      fetchLoanDetails (initializeContracts chainId).originContract account
        hasWeb3 readDetails calcRequired s = s) := by
  have hinit : initializeContracts chainId = ⟨none, none, none⟩ := by
    simp [initializeContracts, h1, h2]
  refine ⟨hinit, ?_, ?_⟩
  · intro account hasWeb3 gpl de gld ctd nowMs
    rw [hinit]
    simp [loadAtRiskLoans]
  · intro account hasWeb3 rd cr s
    rw [hinit]
    simp [fetchLoanDetails]

/-- Witness for C9 at the unrecognized chain id 12345, with reads that
would fail if they were performed. -/
theorem unrecognizedChainNoBinding_witness :
    initializeContracts 12345 = ⟨none, none, none⟩ ∧
    loadAtRiskLoans "0xme" (initializeContracts 12345).destinationContract true
      (.error "rpc down") (fun _ => .error "bad") (fun _ => .error "bad")
      (fun _ => .error "bad") 0 = none ∧
    fetchLoanDetails (initializeContracts 12345).originContract "0xme" true
      (.error "rpc down") (fun n => n) ⟨none, ⟨false, 0⟩, 0⟩ =
      ⟨none, ⟨false, 0⟩, 0⟩ :=
  ⟨(unrecognizedChainNoBinding 12345 (by decide) (by decide)).1,
    (unrecognizedChainNoBinding 12345 (by decide) (by decide)).2.1 "0xme" true
      (.error "rpc down") (fun _ => .error "bad") (fun _ => .error "bad")
      (fun _ => .error "bad") 0,
    (unrecognizedChainNoBinding 12345 (by decide) (by decide)).2.2 "0xme" true
      (.error "rpc down") (fun n => n) ⟨none, ⟨false, 0⟩, 0⟩⟩

/-- C10: the on-chain `repayLoan` is invoked with
`toWei(repayAmount) / 10^18`, which equals the human-unit amount itself;
a confirmed repayment saves a ledger entry whose recorded amount is the
same human-unit value. -/
theorem repayHumanUnits (repayAmount : ℚ) (txHash : String)
    (ledger : List LedgerEntryInput) (hpos : 0 < repayAmount) :
    repayLoanCallArg repayAmount = repayAmount ∧
    handleRepay repayAmount true true (.confirmed txHash) ledger =
      repayCompletedEntry repayAmount txHash :: ledger ∧
    (repayCompletedEntry repayAmount txHash).amount = repayAmount := by
  refine ⟨?_, ?_, rfl⟩
  · unfold repayLoanCallArg toWei
    rw [mul_div_assoc, div_self (by norm_num), mul_one]
  · simp [handleRepay, saveTransaction, hpos]

/-- Witness for C10 at the fractional human-unit amount one half. -/
theorem repayHumanUnits_witness :
    repayLoanCallArg (1 / 2) = 1 / 2 ∧
    handleRepay (1 / 2) true true (.confirmed "0xr") [] =
      repayCompletedEntry (1 / 2) "0xr" :: [] ∧
    (repayCompletedEntry (1 / 2) "0xr").amount = 1 / 2 :=
  repayHumanUnits (1 / 2) "0xr" [] (by norm_num)

end Instant
